import Mathlib

/-!
Shallow embedding of the offer lifecycle & settlement controllers of
`automatch-backend` (src/controllers/buyerOfferController.js: the
`BuyerOfferController` with `createOffer`/`getMyOffers`/`cancelOffer`, and
the `SellerListingController` with `viewEventOffers`/`acceptOffer`/
`bulkUpload`).

Modelling conventions:
- JS numbers carrying money are embedded as rationals `ℚ` holding the
  exact value of the binary64 double.  The multiplications of the fee
  computation (`offer.maxPrice * 0.1`, `offer.maxPrice * 0.9`), whose
  rounding is observable in the settled transaction, are modelled by
  correctly-rounded IEEE-754 binary64 multiplication (`fmul` below,
  round to nearest, ties to even, 53-bit precision; the literals `0.1`
  and `0.9` are the binary64 values `dbl01`/`dbl09`).  The hold amount
  `maxPrice * quantity` is kept exact — no claim turns on its
  rounding.
- Mongo documents become Lean structures; object ids become `Nat`,
  allocated from a `nextId` counter in the store state.
- Times (`Date` values) are `Int` timestamps in seconds.
- External collaborators (Stripe, the pricing engine, the notifier,
  the instant-match hook) are oracles: the outcome of each external
  call is an input flag/value, and each operation also returns a trace
  of the external/store calls it issued, in order, so that ordering
  properties (hold before persist, capture before commit) are facts of
  the embedding.
- A `mongoose` session transaction is embedded by buffering the writes
  and applying them to the store only at the `commitTransaction` point;
  an abort leaves the store state unchanged.
-/

deriving instance DecidableEq for Except

namespace Automatch

/-- Lifecycle status of a buyer offer (the string `status` field of the
`BuyerOffer` document: the controller code uses 'active', 'matched',
'cancelled'; the spec also names 'expired'). -/
inductive OfferStatus where
  | active
  | matched
  | cancelled
  | expired
deriving DecidableEq, Repr

/-- Status of the payment hold recorded on the offer
(`offer.paymentIntent.status`): the controller writes 'authorized' at
creation and 'cancelled' on cancellation.  No other value is ever
written by the code under verification. -/
inductive HoldStatus where
  | authorized
  | cancelled
deriving DecidableEq, Repr

/-- Status of a seller listing: 'draft'/'active' from bulk upload,
'matched' for the record created by `acceptOffer`. -/
inductive ListingStatus where
  | draft
  | active
  | matched
deriving DecidableEq, Repr

/-- The embedded `paymentIntent` subdocument of a `BuyerOffer`. -/
structure PaymentIntent where
  stripePaymentIntentId : String
  amount : ℚ
  status : HoldStatus
  authorizedAt : Int
deriving DecidableEq, Repr

/-- The embedded `BuyerOffer` document. -/
structure BuyerOffer where
  id : Nat
  buyer : Nat
  event : Nat
  sections : List String
  maxPrice : ℚ
  quantity : Nat
  suggestedPrice : ℚ
  acceptanceProbability : ℚ
  paymentIntent : PaymentIntent
  expiresAt : Int
  status : OfferStatus
  matchedListing : Option Nat
  matchedAt : Option Int
  viewCount : Nat
  lastViewedBy : List (Nat × Int)
deriving DecidableEq, Repr

/-- The embedded `SellerListing` document. -/
structure SellerListing where
  id : Nat
  seller : Nat
  event : Nat
  sectionName : String
  row : String
  seats : List String
  quantity : Nat
  askingPrice : ℚ
  status : ListingStatus
  deliveryMethod : String
  deliveryDetails : String
deriving DecidableEq, Repr

/-- The embedded `Transaction` document created by `acceptOffer`. -/
structure Transaction where
  buyer : Nat
  seller : Nat
  buyerOffer : Nat
  sellerListing : Nat
  event : Nat
  quantity : Nat
  sectionName : String
  row : String
  seats : List String
  salePrice : ℚ
  buyerPaid : ℚ
  sellerFee : ℚ
  sellerPayout : ℚ
  stripePaymentIntentId : String
  deliveryMethod : String
deriving DecidableEq, Repr

/-- The `Event` document, read-only for this controller
(id, status string, start time). -/
structure EventRec where
  id : Nat
  status : String
  dateTime : Int
deriving DecidableEq, Repr

/-- The transactional store: the collections touched by the two
controllers, plus the id allocator. -/
structure StoreState where
  offers : List BuyerOffer
  listings : List SellerListing
  transactions : List Transaction
  events : List EventRec
  nextId : Nat
deriving DecidableEq, Repr

/-! ## createOffer -/

/-- Oracle inputs for one `createOffer` call: the pricing engine's answer
(treated per the spec as a pure collaborator), the outcome of the Stripe
hold creation, the id Stripe assigns to the payment intent, the outcome
of `offer.save()`, and the outcome of the instant-match hook. -/
structure CreateEnv where
  suggestedPrice : ℚ
  probability : ℚ
  holdOk : Bool
  holdId : String
  saveOk : Bool
  instantMatchOk : Bool
deriving DecidableEq, Repr

/-- Distinct failure origins of `createOffer`.  The source surfaces
`invalidEvent` as a 400 'Invalid or past event'; every other failure is
caught by the generic handler (500 'Failed to create offer'), but which
call threw is still a fact of the execution and is recorded here. -/
inductive CreateError where
  | invalidEvent
  | paymentHoldFailed
  | offerSaveFailed
  | instantMatchFailed
deriving DecidableEq, Repr

/-- External/store calls issued by `createOffer`, in order.
`holdRequested a` is the `stripe.paymentIntents.create` call for the
monetary amount `a` (the source converts it to cents, `a * 100`, on the
wire; the recorded `paymentIntent.amount` is `a`). -/
inductive CreateEv where
  | pricingRequested
  | holdRequested (amount : ℚ)
  | offerPersisted (id : Nat)
  | instantMatchRequested
deriving DecidableEq, Repr

structure CreateOutcome where
  result : Except CreateError Nat
  state : StoreState
  trace : List CreateEv
deriving DecidableEq, Repr

/-- Modelled from the spec: the `BuyerOffer` schema file
(`src/models/BuyerOffer.js`) is not part of the excerpted source; the
controller never assigns `status` at creation, so the schema default
decides it.  Per the spec, a created offer is persisted with
status=active. -/
def defaultOfferStatus : OfferStatus := .active

/-- Embedding of `BuyerOfferController.createOffer`.  Mirrors the source
order: event lookup and upcoming check, pricing-engine call, Stripe hold
creation (authorize only), expiry = event time minus one hour, document
construction, `offer.save()`, instant-match hook. -/
def createOffer (st : StoreState) (buyerId eventId : Nat)
    (sections : List String) (maxPrice : ℚ) (quantity : Nat)
    (env : CreateEnv) (now : Int) : CreateOutcome :=
  match st.events.find? (fun e => e.id == eventId) with
  | none => ⟨.error .invalidEvent, st, []⟩
  | some ev =>
    if ev.status = "upcoming" then
      let tr0 : List CreateEv := [.pricingRequested, .holdRequested (maxPrice * quantity)]
      if env.holdOk then
        let offer : BuyerOffer :=
          { id := st.nextId
            buyer := buyerId
            event := eventId
            sections := sections
            maxPrice := maxPrice
            quantity := quantity
            suggestedPrice := env.suggestedPrice
            acceptanceProbability := env.probability
            paymentIntent :=
              { stripePaymentIntentId := env.holdId
                amount := maxPrice * quantity
                status := .authorized
                authorizedAt := now }
            expiresAt := ev.dateTime - 3600
            status := defaultOfferStatus
            matchedListing := none
            matchedAt := none
            viewCount := 0
            lastViewedBy := [] }
        if env.saveOk then
          let st' : StoreState :=
            { st with offers := st.offers ++ [offer], nextId := st.nextId + 1 }
          let tr1 := tr0 ++ [.offerPersisted offer.id, .instantMatchRequested]
          if env.instantMatchOk then
            ⟨.ok offer.id, st', tr1⟩
          else
            ⟨.error .instantMatchFailed, st', tr1⟩
        else
          ⟨.error .offerSaveFailed, st, tr0⟩
      else
        ⟨.error .paymentHoldFailed, st, tr0⟩
    else
      ⟨.error .invalidEvent, st, []⟩

/-! ## cancelOffer -/

inductive CancelError where
  | offerNotFound
  | holdCancelFailed
deriving DecidableEq, Repr

structure CancelOutcome where
  result : Except CancelError Unit
  state : StoreState
deriving DecidableEq, Repr

/-- Embedding of `BuyerOfferController.cancelOffer`: find the
requester's active offer, cancel the Stripe hold (failure leaves the
offer untouched, the generic handler answers 500), then mark offer and
hold cancelled. -/
def cancelOffer (st : StoreState) (offerId requesterId : Nat)
    (cancelOk : Bool) : CancelOutcome :=
  match st.offers.find?
      (fun o => o.id == offerId && o.buyer == requesterId
        && decide (o.status = OfferStatus.active)) with
  | none => ⟨.error .offerNotFound, st⟩
  | some offer =>
    if cancelOk then
      let offer' := { offer with
        status := .cancelled
        paymentIntent := { offer.paymentIntent with status := .cancelled } }
      ⟨.ok (), { st with
        offers := st.offers.map (fun o => if o.id == offer.id then offer' else o) }⟩
    else
      ⟨.error .holdCancelFailed, st⟩

/-! ## viewEventOffers -/

/-- The Mongo query `viewEventOffers` builds: event match, status
'active', optional `$in` on sections (some listed section is among the
offer's desired sections), optional `$gte` on maxPrice. -/
def offerMatchesView (eventId : Nat) (sections : Option (List String))
    (minPrice : Option ℚ) (o : BuyerOffer) : Bool :=
  o.event == eventId
    && decide (o.status = OfferStatus.active)
    && (match sections with
        | none => true
        | some ss => o.sections.any (fun s => ss.contains s))
    && (match minPrice with
        | none => true
        | some m => decide (m ≤ o.maxPrice))

/-- The `updateMany` analytics update applied to each returned offer:
`$inc viewCount 1` and `$push lastViewedBy {seller, viewedAt}`. -/
def recordView (sellerId : Nat) (now : Int) (o : BuyerOffer) : BuyerOffer :=
  { o with
    viewCount := o.viewCount + 1
    lastViewedBy := o.lastViewedBy ++ [(sellerId, now)] }

structure ViewOutcome where
  returned : List BuyerOffer
  state : StoreState
deriving DecidableEq, Repr

/-- The per-document effect of the `updateMany`: documents whose id is
in the returned id set get the analytics update, all others are
untouched. -/
def applyViewUpdate (ids : List Nat) (sellerId : Nat) (now : Int)
    (o : BuyerOffer) : BuyerOffer :=
  if ids.contains o.id then recordView sellerId now o else o

/-- Embedding of `SellerListingController.viewEventOffers`: query the
active offers of the event, then `updateMany` the view analytics of
exactly the returned ids.  The response carries the documents as found,
before the analytics update.  (The source also sorts the result by
maxPrice or createdAt; sorting only permutes `returned` and does not
change the id set that `updateMany` targets, so it is omitted.) -/
def viewEventOffers (st : StoreState) (eventId sellerId : Nat)
    (sections : Option (List String)) (minPrice : Option ℚ)
    (now : Int) : ViewOutcome :=
  let found := st.offers.filter (offerMatchesView eventId sections minPrice)
  let ids := found.map (fun o => o.id)
  { returned := found
    state := { st with
      offers := st.offers.map (applyViewUpdate ids sellerId now) } }

/-! ## IEEE-754 binary64 arithmetic for the fee computation

The source computes `offer.maxPrice * 0.1` and `offer.maxPrice * 0.9`
in JavaScript, i.e. in IEEE-754 binary64 ("double") arithmetic: each
product is the exact real product rounded to 53 significant bits,
round to nearest, ties to even.  The functions below implement exactly
that rounding on the exact rational values, using only `Int`/`Nat`
arithmetic and `mkRat` so that the kernel can evaluate them.  The
exponent range is unbounded (no overflow/subnormal handling), which
coincides with binary64 for all non-extreme magnitudes — monetary
amounts in particular. -/

/-- Number of binary digits of `n` (0 for 0), with explicit fuel so the
recursion is structural; `fuel ≥ the bit count` suffices. -/
def bitLen : Nat → Nat → Nat
  | 0, _ => 0
  | fuel + 1, n => if n = 0 then 0 else bitLen fuel (n / 2) + 1

/-- Number of binary digits of `n`: `n ≥ 1` has at most `n` digits, so
`n` itself is enough fuel. -/
def natBits (n : Nat) : Nat := bitLen n n

/-- Floor, remainder and divisor of `(p/q) / 2^e`: returns `(m, r, D)`
with `p/q / 2^e = m + r/D` and `0 ≤ r < D`. -/
def scaledFloor (p q : Nat) (e : Int) : Nat × Nat × Nat :=
  if 0 ≤ e then
    let D := q * 2 ^ e.toNat
    (p / D, p % D, D)
  else
    let N := p * 2 ^ (-e).toNat
    (N / q, N % q, q)

/-- Round the positive rational `p/q` (`p, q ≥ 1`) to 53 significant
bits, round to nearest, ties to even: returns `(m, e)` with value
`m · 2^e` and `2^52 ≤ m ≤ 2^53`.  The exponent `e` is chosen so that
`⌊(p/q) / 2^e⌋` has exactly 53 bits (one adjustment of the bit-length
estimate suffices), then the floor is rounded on its remainder. -/
def roundPos53 (p q : Nat) : Nat × Int :=
  let e0 : Int := (natBits p : Int) - (natBits q : Int) - 53
  let e : Int := if 2 ^ 53 ≤ (scaledFloor p q e0).1 then e0 + 1 else e0
  let s := scaledFloor p q e
  let m0 := s.1
  let r := s.2.1
  let D := s.2.2
  let m := if D < 2 * r then m0 + 1
    else if 2 * r < D then m0
    else if m0 % 2 = 0 then m0 else m0 + 1
  (m, e)

/-- The rational value `m · 2^e`. -/
def dyadic (m : ℤ) (e : ℤ) : ℚ :=
  if 0 ≤ e then mkRat (m * 2 ^ e.toNat) 1 else mkRat m (2 ^ (-e).toNat)

/-- The binary64 rounding of the rational `n/d` (`d > 0`). -/
def froundRat (n d : ℤ) : ℚ :=
  if n = 0 then 0
  else
    let me := roundPos53 n.natAbs d.natAbs
    if 0 ≤ n then dyadic (me.1 : ℤ) me.2 else dyadic (-(me.1 : ℤ)) me.2

/-- IEEE-754 binary64 multiplication: the exact product, correctly
rounded. -/
def fmul (a b : ℚ) : ℚ :=
  froundRat (a.num * b.num) ((a.den : ℤ) * (b.den : ℤ))

/-- IEEE-754 binary64 addition: the exact sum, correctly rounded. -/
def fadd (a b : ℚ) : ℚ :=
  froundRat (a.num * (b.den : ℤ) + b.num * (a.den : ℤ))
    ((a.den : ℤ) * (b.den : ℤ))

/-- The binary64 value of the source literal `0.1`
(3602879701896397 · 2⁻⁵⁵). -/
def dbl01 : ℚ := mkRat 3602879701896397 36028797018963968

/-- The binary64 value of the source literal `0.9`
(8106479329266893 · 2⁻⁵³). -/
def dbl09 : ℚ := mkRat 8106479329266893 9007199254740992

/-! ## acceptOffer -/

/-- Oracle inputs for one `acceptOffer` call: the outcomes of the three
in-session saves, of the Stripe capture, and of the notifier. -/
structure AcceptEnv where
  listingSaveOk : Bool
  offerSaveOk : Bool
  txSaveOk : Bool
  captureOk : Bool
  notifyOk : Bool
deriving DecidableEq, Repr

/-- All five collaborator calls of `acceptOffer` succeed. -/
def AcceptEnv.allOk (e : AcceptEnv) : Bool :=
  e.listingSaveOk && e.offerSaveOk && e.txSaveOk && e.captureOk && e.notifyOk

/-- Distinct failure origins of `acceptOffer`.  `offerNotAvailable` and
`sectionMismatch` are the two explicit `throw`s of the source;
`settlementWriteFailed` is a failed in-session save (whichever of the
three), `captureFailed` a failed Stripe capture, `notifyFailed` a
notifier failure after the commit. -/
inductive AcceptError where
  | offerNotAvailable
  | sectionMismatch
  | settlementWriteFailed
  | captureFailed
  | notifyFailed
deriving DecidableEq, Repr

/-- External/store calls issued by `acceptOffer`, in order. -/
inductive AcceptEv where
  | listingWrite
  | offerWrite
  | transactionWrite
  | captureRequested (paymentIntentId : String)
  | transactionCommitted
  | notifyRequested
deriving DecidableEq, Repr

structure AcceptOutcome where
  result : Except AcceptError Transaction
  state : StoreState
  trace : List AcceptEv
deriving DecidableEq, Repr

/-- Embedding of `SellerListingController.acceptOffer`, mirroring the
source order inside the session: find the offer, validate status and
section, save the listing, update the offer, save the transaction,
capture the payment, and only then `commitTransaction`; the notifier is
invoked after the commit but still inside the inner try.  Any throw
before the commit aborts the transaction, so the store is unchanged on
those paths; a notifier throw after the commit leaves the committed
writes in place but surfaces as an error response. -/
def acceptOffer (st : StoreState) (offerId sellerId : Nat)
    (sectionName row : String) (seats : List String)
    (deliveryMethod deliveryDetails : String)
    (env : AcceptEnv) (now : Int) : AcceptOutcome :=
  match st.offers.find? (fun o => o.id == offerId) with
  | none => ⟨.error .offerNotAvailable, st, []⟩
  | some offer =>
    if offer.status = OfferStatus.active then
      if offer.sections.contains sectionName then
        let listing : SellerListing :=
          { id := st.nextId
            seller := sellerId
            event := offer.event
            sectionName := sectionName
            row := row
            seats := seats
            quantity := offer.quantity
            askingPrice := offer.maxPrice
            status := .matched
            deliveryMethod := deliveryMethod
            deliveryDetails := deliveryDetails }
        if env.listingSaveOk then
          let offer' := { offer with
            status := .matched
            matchedListing := some listing.id
            matchedAt := some now }
          if env.offerSaveOk then
            let tx : Transaction :=
              { buyer := offer.buyer
                seller := sellerId
                buyerOffer := offer.id
                sellerListing := listing.id
                event := offer.event
                quantity := offer.quantity
                sectionName := sectionName
                row := row
                seats := seats
                salePrice := offer.maxPrice
                buyerPaid := offer.maxPrice
                -- source: `offer.maxPrice * 0.1 // 10% fee` and
                -- `offer.maxPrice * 0.9`, computed in binary64 doubles
                sellerFee := fmul offer.maxPrice dbl01
                sellerPayout := fmul offer.maxPrice dbl09
                stripePaymentIntentId := offer.paymentIntent.stripePaymentIntentId
                deliveryMethod := deliveryMethod }
            if env.txSaveOk then
              if env.captureOk then
                let st' : StoreState :=
                  { st with
                    offers := st.offers.map
                      (fun o => if o.id == offerId then offer' else o)
                    listings := st.listings ++ [listing]
                    transactions := st.transactions ++ [tx]
                    nextId := st.nextId + 1 }
                let tr : List AcceptEv :=
                  [.listingWrite, .offerWrite, .transactionWrite,
                   .captureRequested offer.paymentIntent.stripePaymentIntentId,
                   .transactionCommitted, .notifyRequested]
                if env.notifyOk then
                  ⟨.ok tx, st', tr⟩
                else
                  ⟨.error .notifyFailed, st', tr⟩
              else
                ⟨.error .captureFailed, st,
                 [.listingWrite, .offerWrite, .transactionWrite,
                  .captureRequested offer.paymentIntent.stripePaymentIntentId]⟩
            else
              ⟨.error .settlementWriteFailed, st,
               [.listingWrite, .offerWrite, .transactionWrite]⟩
          else
            ⟨.error .settlementWriteFailed, st, [.listingWrite, .offerWrite]⟩
        else
          ⟨.error .settlementWriteFailed, st, [.listingWrite]⟩
      else
        ⟨.error .sectionMismatch, st, []⟩
    else
      ⟨.error .offerNotAvailable, st, []⟩

/-! ## bulkUpload -/

/-- One item of a bulk upload request body. -/
structure ListingSpec where
  event : Nat
  sectionName : String
  row : String
  seats : List String
  quantity : Nat
  askingPrice : ℚ
  deliveryMethod : String
  deliveryDetails : String
  goLiveAt : Option Int
deriving DecidableEq, Repr

/-- Embedding of `SellerListingController.bulkUpload`: each item becomes
an independent listing, status 'draft' when a goLiveAt is given, else
'active'. -/
def bulkUpload (st : StoreState) (sellerId : Nat)
    (items : List ListingSpec) : StoreState :=
  let newListings := items.enum.map (fun p =>
    { id := st.nextId + p.1
      seller := sellerId
      event := p.2.event
      sectionName := p.2.sectionName
      row := p.2.row
      seats := p.2.seats
      quantity := p.2.quantity
      askingPrice := p.2.askingPrice
      status := if p.2.goLiveAt.isSome then ListingStatus.draft else ListingStatus.active
      deliveryMethod := p.2.deliveryMethod
      deliveryDetails := p.2.deliveryDetails : SellerListing })
  { st with listings := st.listings ++ newListings, nextId := st.nextId + items.length }

/-! ## expireSweep -/

structure SweepOutcome where
  state : StoreState
  attempted : List Nat
deriving DecidableEq, Repr

/-- An offer due for expiry at time `now`. -/
def offerDue (now : Int) (o : BuyerOffer) : Bool :=
  decide (o.status = OfferStatus.active) && decide (o.expiresAt < now)

/-- An offer after a successful expiry: status=expired, hold
cancelled. -/
def expiredVersion (o : BuyerOffer) : BuyerOffer :=
  { o with
    status := .expired
    paymentIntent := { o.paymentIntent with status := .cancelled } }

/-- Modelled from the spec: `expireSweep` (spec §4.1) is part of this
repository's offer lifecycle but its code is not under src/ (only the
two controller files are excerpted).  Per the spec: for every active
offer whose expiresAt has passed, attempt cancellation of the payment
hold; on success transition the offer to expired with its hold
cancelled; a failure on one offer leaves that offer for retry and does
not abort the sweep of the remaining offers.  `cancelOk` is the oracle
for the per-offer hold-cancellation call; `attempted` records every
cancellation attempted. -/
def expireSweep (st : StoreState) (now : Int)
    (cancelOk : Nat → Bool) : SweepOutcome :=
  { state := { st with
      offers := st.offers.map (fun o =>
        if offerDue now o then
          if cancelOk o.id then expiredVersion o else o
        else o) }
    attempted := (st.offers.filter (offerDue now)).map (fun o => o.id) }

/-! ## Concrete fixtures used by the witnesses and counterexamples -/

/-- An upcoming event. -/
def sampleEvent : EventRec := { id := 1, status := "upcoming", dateTime := 100000 }

/-- An active offer holding 200 = 100 × 2 against event 1. -/
def sampleOffer : BuyerOffer :=
  { id := 10
    buyer := 2
    event := 1
    sections := ["A", "B"]
    maxPrice := 100
    quantity := 2
    suggestedPrice := 90
    acceptanceProbability := 1
    paymentIntent :=
      { stripePaymentIntentId := "pi_1", amount := 200
        status := .authorized, authorizedAt := 0 }
    expiresAt := 96400
    status := .active
    matchedListing := none
    matchedAt := none
    viewCount := 0
    lastViewedBy := [] }

/-- A store holding `sampleEvent` and `sampleOffer`. -/
def sampleState : StoreState :=
  { offers := [sampleOffer]
    listings := []
    transactions := []
    events := [sampleEvent]
    nextId := 11 }

/-- Accept-call oracle where every collaborator call succeeds. -/
def acceptAllOk : AcceptEnv :=
  { listingSaveOk := true, offerSaveOk := true, txSaveOk := true
    captureOk := true, notifyOk := true }

/-- Create-call oracle where every collaborator call succeeds. -/
def createAllOk : CreateEnv :=
  { suggestedPrice := 90, probability := 1, holdOk := true
    holdId := "pi_2", saveOk := true, instantMatchOk := true }

/-- The binary64 value of the JS number `0.3`
(5404319552844595 · 2⁻⁵⁴): a representable price on which the fee law
fails. -/
def dbl03 : ℚ := mkRat 5404319552844595 18014398509481984

/-- An active offer whose maxPrice is the double 0.3, used by the C6
failing-input evaluation. -/
def feeBugOffer : BuyerOffer :=
  { sampleOffer with
    id := 30
    maxPrice := dbl03
    paymentIntent := { sampleOffer.paymentIntent with
      stripePaymentIntentId := "pi_3" } }

def feeBugState : StoreState :=
  { sampleState with offers := [feeBugOffer], nextId := 31 }

/-- The settled transaction the code records for `feeBugOffer`:
sellerFee is the double 0.03 (1080863910568919 · 2⁻⁵⁵), sellerPayout
the double 0.27 (607985949695017 · 2⁻⁵¹). -/
def feeBugTx : Transaction :=
  { buyer := 2
    seller := 5
    buyerOffer := 30
    sellerListing := 31
    event := 1
    quantity := 2
    sectionName := "A"
    row := "3"
    seats := ["s1"]
    salePrice := dbl03
    buyerPaid := dbl03
    sellerFee := mkRat 1080863910568919 36028797018963968
    sellerPayout := mkRat 607985949695017 2251799813685248
    stripePaymentIntentId := "pi_3"
    deliveryMethod := "email" }

/-- An offer past its expiry with a due sweep, and a store containing
it, used by the C8 witness. -/
def dueOffer : BuyerOffer := { sampleOffer with id := 20, expiresAt := 10 }

def sweepState : StoreState := { sampleState with offers := [dueOffer] }

/-! ## C1 — definitions: serialized accept batches and reachability -/

/-- One accept request: all inputs of an `acceptOffer` call except the
target offer id. -/
structure AcceptReq where
  sellerId : Nat
  sectionName : String
  row : String
  seats : List String
  deliveryMethod : String
  deliveryDetails : String
  env : AcceptEnv
  now : Int
deriving DecidableEq, Repr

/-- Serialized execution of a batch of accept calls against the same
offer.  Each `acceptOffer` runs read-validate-write inside one store
transaction (the per-offer lock of the source), so any set of
concurrent invocations on one offer is equivalent to some serial order;
the list order represents that serialization. -/
def runAccepts (st : StoreState) (offerId : Nat) :
    List AcceptReq → List (Except AcceptError Transaction) × StoreState
  | [] => ([], st)
  | r :: rs =>
    let out := acceptOffer st offerId r.sellerId r.sectionName r.row r.seats
      r.deliveryMethod r.deliveryDetails r.env r.now
    let rest := runAccepts out.state offerId rs
    (out.result :: rest.1, rest.2)

/-- The operations of the two controllers (plus the spec-modelled
sweep), as the step alphabet for reachability. -/
inductive Op where
  | create (buyerId eventId : Nat) (sections : List String) (maxPrice : ℚ)
      (quantity : Nat) (env : CreateEnv) (now : Int)
  | accept (offerId sellerId : Nat) (sectionName row : String)
      (seats : List String) (deliveryMethod deliveryDetails : String)
      (env : AcceptEnv) (now : Int)
  | cancel (offerId requesterId : Nat) (cancelOk : Bool)
  | view (eventId sellerId : Nat) (sections : Option (List String))
      (minPrice : Option ℚ) (now : Int)
  | bulk (sellerId : Nat) (items : List ListingSpec)
  | sweep (now : Int) (cancelOk : Nat → Bool)

/-- The store state after one operation. -/
def step (st : StoreState) : Op → StoreState
  | .create b e secs mp q env now => (createOffer st b e secs mp q env now).state
  | .accept oid sid sec row seats dm dd env now =>
      (acceptOffer st oid sid sec row seats dm dd env now).state
  | .cancel oid rid ok => (cancelOffer st oid rid ok).state
  | .view e sid secs mp now => (viewEventOffers st e sid secs mp now).state
  | .bulk sid items => bulkUpload st sid items
  | .sweep now f => (expireSweep st now f).state

def runOps (st : StoreState) : List Op → StoreState
  | [] => st
  | op :: ops => runOps (step st op) ops

/-- The empty initial store over a given event catalogue. -/
def initState (evs : List EventRec) : StoreState :=
  { offers := [], listings := [], transactions := [], events := evs, nextId := 0 }

/-- States reachable by the embedded operations from an empty store. -/
def Reachable (st : StoreState) : Prop :=
  ∃ evs ops, st = runOps (initState evs) ops

/-- Number of settled transactions referencing offer `oid`. -/
def txRefs (st : StoreState) (oid : Nat) : Nat :=
  st.transactions.countP (fun t => t.buyerOffer == oid)

/-- The settlement invariant maintained by every operation: at most one
settled transaction per offer id; an active offer has none; and all
offer ids and transaction references are below the id allocator. -/
def SettlementInv (st : StoreState) : Prop :=
  (∀ oid, txRefs st oid ≤ 1) ∧
  (∀ o ∈ st.offers, o.status = OfferStatus.active → txRefs st o.id = 0) ∧
  (∀ o ∈ st.offers, o.id < st.nextId) ∧
  (∀ t ∈ st.transactions, t.buyerOffer < st.nextId)


/-- Two concurrent accept requests on `sampleOffer` with valid,
non-conflicting inputs, used by the C1 witness. -/
def reqA : AcceptReq :=
  { sellerId := 5, sectionName := "A", row := "3", seats := ["s1", "s2"]
    deliveryMethod := "email", deliveryDetails := "d"
    env := acceptAllOk, now := 50 }

def reqB : AcceptReq :=
  { sellerId := 6, sectionName := "B", row := "4", seats := ["t1", "t2"]
    deliveryMethod := "mobile", deliveryDetails := "e"
    env := acceptAllOk, now := 51 }

/-! ## C5 — hold precedes persistence in createOffer -/

/-- **C5**: for every createOffer invocation (on an existing upcoming
event), a failed hold means the offer is never persisted and the
operation fails with the payment-hold failure; when the offer is
persisted the hold request for maxPrice × quantity precedes the
persistence in the call trace, and the persisted offer has
status=active with held amount maxPrice × quantity. -/
theorem createOffer_hold_before_persist
    (st : StoreState) (buyerId eventId : Nat) (sections : List String)
    (maxPrice : ℚ) (quantity : Nat) (env : CreateEnv) (now : Int)
    (ev : EventRec)
    (hev : st.events.find? (fun e => e.id == eventId) = some ev)
    (hup : ev.status = "upcoming") :
    (env.holdOk = false →
      (createOffer st buyerId eventId sections maxPrice quantity env now).result
          = .error .paymentHoldFailed ∧
      (createOffer st buyerId eventId sections maxPrice quantity env now).state = st) ∧
    (∀ oid, (createOffer st buyerId eventId sections maxPrice quantity env now).result
          = .ok oid →
      (createOffer st buyerId eventId sections maxPrice quantity env now).trace
          = [.pricingRequested, .holdRequested (maxPrice * quantity),
             .offerPersisted oid, .instantMatchRequested] ∧
      ∃ o, o ∈ (createOffer st buyerId eventId sections maxPrice quantity env now).state.offers ∧
        o.id = oid ∧ o.status = .active ∧
        o.paymentIntent.amount = maxPrice * quantity ∧
        o.paymentIntent.status = .authorized) := by
  unfold createOffer
  rw [hev]
  simp only [hup, if_true]
  constructor
  · intro hh
    simp [hh]
  · intro oid hok
    by_cases hh : env.holdOk
    · by_cases hs : env.saveOk
      · by_cases hi : env.instantMatchOk
        · simp only [hh, hs, hi, if_true] at hok ⊢
          have hid : st.nextId = oid := by
            simpa using hok
          subst hid
          refine ⟨rfl, ?_⟩
          refine ⟨_, List.mem_append_right _ (List.mem_singleton.mpr rfl), rfl, rfl, rfl, rfl⟩
        · simp [hh, hs, hi] at hok
      · simp [hh, hs] at hok
    · simp [hh] at hok

/-- Witness for C5 at a concrete input: the hypotheses hold for
`sampleState`, and the conclusion is obtained by applying the theorem
there. -/
theorem createOffer_hold_before_persist_witness :
    sampleState.events.find? (fun e => e.id == 1) = some sampleEvent ∧
    sampleEvent.status = "upcoming" ∧
    ((createAllOk.holdOk = false →
      (createOffer sampleState 2 1 ["A"] 100 2 createAllOk 50).result
          = .error .paymentHoldFailed ∧
      (createOffer sampleState 2 1 ["A"] 100 2 createAllOk 50).state = sampleState) ∧
    (∀ oid, (createOffer sampleState 2 1 ["A"] 100 2 createAllOk 50).result = .ok oid →
      (createOffer sampleState 2 1 ["A"] 100 2 createAllOk 50).trace
          = [.pricingRequested, .holdRequested (100 * 2),
             .offerPersisted oid, .instantMatchRequested] ∧
      ∃ o, o ∈ (createOffer sampleState 2 1 ["A"] 100 2 createAllOk 50).state.offers ∧
        o.id = oid ∧ o.status = .active ∧
        o.paymentIntent.amount = 100 * 2 ∧
        o.paymentIntent.status = .authorized)) :=
  ⟨rfl, rfl, createOffer_hold_before_persist sampleState 2 1 ["A"] 100 2 createAllOk 50
    sampleEvent rfl rfl⟩

/-! ## C9 — which createOffer preconditions are actually validated -/

/-- **C9 counterexample**: the input `maxPrice = 0` (violating
maxPrice > 0) and `quantity = 0` (violating quantity ≥ 1) is NOT
rejected: the call still requests a payment hold (trace position 1),
persists the offer (the store grows to two offers) and reports
success — contradicting "rejected synchronously as a validation error
with no side effects". -/
theorem createOffer_no_price_quantity_validation_cx :
    (createOffer sampleState 2 1 ["A"] 0 0 createAllOk 50).result = .ok 11 ∧
    (createOffer sampleState 2 1 ["A"] 0 0 createAllOk 50).state.offers.length = 2 ∧
    (∃ a, (createOffer sampleState 2 1 ["A"] 0 0 createAllOk 50).trace.get? 1
      = some (.holdRequested a)) :=
  ⟨rfl, rfl, ⟨_, rfl⟩⟩

/-- **C9 amended**: only the event precondition is validated: when the
event does not exist or its status is not "upcoming", createOffer is
rejected synchronously with no side effects (no external call is
issued, nothing is persisted); violations of maxPrice > 0 or
quantity ≥ 1 are not checked and proceed to the payment hold request. -/
theorem createOffer_event_validation_only
    (st : StoreState) (buyerId eventId : Nat) (sections : List String)
    (maxPrice : ℚ) (quantity : Nat) (env : CreateEnv) (now : Int)
    (hbad : st.events.find? (fun e => e.id == eventId) = none ∨
      ∃ ev, st.events.find? (fun e => e.id == eventId) = some ev ∧
        ev.status ≠ "upcoming") :
    (createOffer st buyerId eventId sections maxPrice quantity env now).result
        = .error .invalidEvent ∧
    (createOffer st buyerId eventId sections maxPrice quantity env now).state = st ∧
    (createOffer st buyerId eventId sections maxPrice quantity env now).trace = [] := by
  unfold createOffer
  rcases hbad with hnone | ⟨ev, hev, hst⟩
  · rw [hnone]
    exact ⟨rfl, rfl, rfl⟩
  · rw [hev]
    simp [hst]

/-- Witness for the amended C9 at a concrete input: event 99 does not
exist in `sampleState`, so the call is rejected with no side effects. -/
theorem createOffer_event_validation_only_witness :
    (sampleState.events.find? (fun e => e.id == 99) = none ∨
      ∃ ev, sampleState.events.find? (fun e => e.id == 99) = some ev ∧
        ev.status ≠ "upcoming") ∧
    ((createOffer sampleState 2 99 ["A"] 100 2 createAllOk 50).result
        = .error .invalidEvent ∧
     (createOffer sampleState 2 99 ["A"] 100 2 createAllOk 50).state = sampleState ∧
     (createOffer sampleState 2 99 ["A"] 100 2 createAllOk 50).trace = []) :=
  ⟨Or.inl rfl,
   createOffer_event_validation_only sampleState 2 99 ["A"] 100 2 createAllOk 50
     (Or.inl rfl)⟩

/-! ## Helper lemmas about the store -/

lemma applyViewUpdate_pos (ids : List Nat) (sellerId : Nat) (now : Int)
    (o : BuyerOffer) (h : o.id ∈ ids) :
    applyViewUpdate ids sellerId now o = recordView sellerId now o := by
  unfold applyViewUpdate
  rw [if_pos (List.elem_iff.mpr h)]

lemma applyViewUpdate_neg (ids : List Nat) (sellerId : Nat) (now : Int)
    (o : BuyerOffer) (h : o.id ∉ ids) :
    applyViewUpdate ids sellerId now o = o := by
  unfold applyViewUpdate
  rw [if_neg (fun hc => h (List.elem_iff.mp hc))]


/-- Updating by id through `map` relocates the updated document where
`find?` will return it, provided the replacement keeps the looked-up
id. -/
lemma find?_map_update (l : List BuyerOffer) (oid : Nat) (m offer : BuyerOffer)
    (h : l.find? (fun o => o.id == oid) = some offer)
    (hm : (m.id == oid) = true) :
    (l.map (fun o => if o.id == oid then m else o)).find? (fun o => o.id == oid)
      = some m := by
  induction l with
  | nil => simp at h
  | cons a l ih =>
    by_cases ha : (a.id == oid) = true
    · simp only [List.map_cons, ha, if_true]
      exact List.find?_cons_of_pos _ hm
    · rw [List.find?_cons_of_neg _ (by simp [ha])] at h
      simp only [List.map_cons, ha, if_false, Bool.false_eq_true]
      rw [List.find?_cons_of_neg _ (by simp [ha])]
      exact ih h

/-! ## C4 — a failed settlement write leaves no partial state -/

/-- **C4**: when any of the three in-session writes of Step 3 fails
(listing save, offer save, or transaction save), `acceptOffer` fails
with the settlement-write failure and the store is exactly as before:
no partial record is visible, and in particular the offer is still the
untouched active document. -/
theorem acceptOffer_write_failure_atomic
    (st : StoreState) (offerId sellerId : Nat) (sectionName row : String)
    (seats : List String) (deliveryMethod deliveryDetails : String)
    (env : AcceptEnv) (now : Int) (offer : BuyerOffer)
    (hfind : st.offers.find? (fun o => o.id == offerId) = some offer)
    (hact : offer.status = OfferStatus.active)
    (hsec : offer.sections.contains sectionName = true)
    (hfail : env.listingSaveOk = false ∨ env.offerSaveOk = false ∨
      env.txSaveOk = false) :
    (acceptOffer st offerId sellerId sectionName row seats
        deliveryMethod deliveryDetails env now).result
      = .error .settlementWriteFailed ∧
    (acceptOffer st offerId sellerId sectionName row seats
        deliveryMethod deliveryDetails env now).state = st := by
  unfold acceptOffer
  rw [hfind]
  simp only [hact, if_true, hsec]
  rcases hfail with h | h | h
  · simp [h]
  · cases hl : env.listingSaveOk <;> simp [h]
  · cases hl : env.listingSaveOk <;> cases ho : env.offerSaveOk <;> simp [h]

/-- Witness for C4 at a concrete input: the transaction save fails on
`sampleState`; the call fails with the settlement-write failure and the
store is unchanged. -/
theorem acceptOffer_write_failure_atomic_witness :
    sampleState.offers.find? (fun o => o.id == 10) = some sampleOffer ∧
    sampleOffer.status = OfferStatus.active ∧
    sampleOffer.sections.contains "A" = true ∧
    ((acceptOffer sampleState 10 5 "A" "3" ["s1", "s2"] "email" "d"
        { acceptAllOk with txSaveOk := false } 50).result
      = .error .settlementWriteFailed ∧
    (acceptOffer sampleState 10 5 "A" "3" ["s1", "s2"] "email" "d"
        { acceptAllOk with txSaveOk := false } 50).state = sampleState) :=
  ⟨rfl, rfl, rfl,
   acceptOffer_write_failure_atomic sampleState 10 5 "A" "3" ["s1", "s2"]
     "email" "d" { acceptAllOk with txSaveOk := false } 50 sampleOffer
     rfl rfl rfl (Or.inr (Or.inr rfl))⟩

/-! ## C6 — the fee law of the settled transaction -/

set_option maxRecDepth 8000 in
/-- **C6 (code bug)**: the fee law demands
`sellerFee + sellerPayout = salePrice` exactly for every settled
transaction, but the source computes `offer.maxPrice * 0.1` and
`offer.maxPrice * 0.9` in IEEE-754 binary64 arithmetic, where the law
fails for representable prices.  Evaluating the embedded code at
maxPrice = 0.3 (the double 5404319552844595·2⁻⁵⁴): the settled
transaction records sellerFee = 0.03 (1080863910568919·2⁻⁵⁵) and
sellerPayout = 0.27 (607985949695017·2⁻⁵¹); their double sum is
0.30000000000000004 (1351079888211149·2⁻⁵²) and their exact sum also
differs from salePrice — the recorded transaction violates the fee
law. -/
theorem acceptOffer_fee_law_float_bug :
    (acceptOffer feeBugState 30 5 "A" "3" ["s1"] "email" "d"
        acceptAllOk 50).result = .ok feeBugTx ∧
    feeBugTx.salePrice = feeBugOffer.maxPrice ∧
    fadd feeBugTx.sellerFee feeBugTx.sellerPayout
      = mkRat 1351079888211149 4503599627370496 ∧
    fadd feeBugTx.sellerFee feeBugTx.sellerPayout ≠ feeBugTx.salePrice ∧
    feeBugTx.sellerFee + feeBugTx.sellerPayout ≠ feeBugTx.salePrice := by
  refine ⟨by decide, by decide, by decide, by decide, ?_⟩
  show mkRat 1080863910568919 36028797018963968
      + mkRat 607985949695017 2251799813685248
      ≠ mkRat 5404319552844595 18014398509481984
  simp only [Rat.mkRat_eq_divInt, Rat.divInt_eq_div]
  norm_num

/-! ## C2 — where the capture sits relative to the commit -/

/-- **C2 counterexample**: a fully successful `acceptOffer` on
`sampleState` issues the capture request at trace position 3 and the
transaction commit at position 4: the capture PRECEDES the commit
(source lines: `stripe.paymentIntents.capture` is called before
`session.commitTransaction()`), refuting "the capture call never
precedes the commit". -/
theorem acceptOffer_capture_precedes_commit_cx :
    (∃ tx, (acceptOffer sampleState 10 5 "A" "3" ["s1", "s2"] "email" "d"
        acceptAllOk 50).result = .ok tx) ∧
    (acceptOffer sampleState 10 5 "A" "3" ["s1", "s2"] "email" "d"
        acceptAllOk 50).trace
      = [.listingWrite, .offerWrite, .transactionWrite,
         .captureRequested "pi_1", .transactionCommitted, .notifyRequested] ∧
    (acceptOffer sampleState 10 5 "A" "3" ["s1", "s2"] "email" "d"
        acceptAllOk 50).trace.get? 3 = some (.captureRequested "pi_1") ∧
    (acceptOffer sampleState 10 5 "A" "3" ["s1", "s2"] "email" "d"
        acceptAllOk 50).trace.get? 4 = some .transactionCommitted :=
  ⟨⟨_, rfl⟩, rfl, rfl, rfl⟩

/-- **C2 amended**: in every execution of `acceptOffer` that reaches
the capture (valid active offer, matching section, all three
in-session writes succeed), the capture of the held authorization is
requested after the three settlement writes are issued and BEFORE the
transaction commits; the commit happens only if the capture call
returns successfully. -/
theorem acceptOffer_capture_after_writes_before_commit
    (st : StoreState) (offerId sellerId : Nat) (sectionName row : String)
    (seats : List String) (deliveryMethod deliveryDetails : String)
    (env : AcceptEnv) (now : Int) (offer : BuyerOffer)
    (hfind : st.offers.find? (fun o => o.id == offerId) = some offer)
    (hact : offer.status = OfferStatus.active)
    (hsec : offer.sections.contains sectionName = true)
    (h1 : env.listingSaveOk = true) (h2 : env.offerSaveOk = true)
    (h3 : env.txSaveOk = true) :
    (env.captureOk = true →
      (acceptOffer st offerId sellerId sectionName row seats
          deliveryMethod deliveryDetails env now).trace
        = [.listingWrite, .offerWrite, .transactionWrite,
           .captureRequested offer.paymentIntent.stripePaymentIntentId,
           .transactionCommitted, .notifyRequested]) ∧
    (env.captureOk = false →
      (acceptOffer st offerId sellerId sectionName row seats
          deliveryMethod deliveryDetails env now).trace
        = [.listingWrite, .offerWrite, .transactionWrite,
           .captureRequested offer.paymentIntent.stripePaymentIntentId]) := by
  unfold acceptOffer
  rw [hfind]
  simp only [hact, if_true, hsec, h1, h2, h3]
  constructor
  · intro hc
    cases hn : env.notifyOk <;> simp [hc, hn]
  · intro hc
    simp [hc]

/-- Witness for the amended C2 at a concrete input. -/
theorem acceptOffer_capture_after_writes_before_commit_witness :
    sampleState.offers.find? (fun o => o.id == 10) = some sampleOffer ∧
    sampleOffer.status = OfferStatus.active ∧
    sampleOffer.sections.contains "A" = true ∧
    ((acceptAllOk.captureOk = true →
      (acceptOffer sampleState 10 5 "A" "3" ["s1", "s2"] "email" "d"
          acceptAllOk 50).trace
        = [.listingWrite, .offerWrite, .transactionWrite,
           .captureRequested sampleOffer.paymentIntent.stripePaymentIntentId,
           .transactionCommitted, .notifyRequested]) ∧
    (acceptAllOk.captureOk = false →
      (acceptOffer sampleState 10 5 "A" "3" ["s1", "s2"] "email" "d"
          acceptAllOk 50).trace
        = [.listingWrite, .offerWrite, .transactionWrite,
           .captureRequested sampleOffer.paymentIntent.stripePaymentIntentId])) :=
  ⟨rfl, rfl, rfl,
   acceptOffer_capture_after_writes_before_commit sampleState 10 5 "A" "3"
     ["s1", "s2"] "email" "d" acceptAllOk 50 sampleOffer rfl rfl rfl
     rfl rfl rfl⟩

/-! ## C3 — what actually happens when the capture fails -/

/-- **C3 counterexample**: on `sampleState`, with the three settlement
writes succeeding and the capture failing, the transaction is ABORTED:
the store is exactly as before the call (no SellerFulfillment, no
SettledTransaction, offer still active with its hold still
'authorized' — there is no capture-failed hold state in the code at
all), refuting "the committed records are not rolled back; the offer's
hold-state is set to capture-failed". -/
theorem acceptOffer_capture_failure_rolls_back_cx :
    (acceptOffer sampleState 10 5 "A" "3" ["s1", "s2"] "email" "d"
        { acceptAllOk with captureOk := false } 50).result
      = .error .captureFailed ∧
    (acceptOffer sampleState 10 5 "A" "3" ["s1", "s2"] "email" "d"
        { acceptAllOk with captureOk := false } 50).state = sampleState ∧
    (acceptOffer sampleState 10 5 "A" "3" ["s1", "s2"] "email" "d"
        { acceptAllOk with captureOk := false } 50).state.transactions = [] ∧
    (acceptOffer sampleState 10 5 "A" "3" ["s1", "s2"] "email" "d"
        { acceptAllOk with captureOk := false } 50).state.listings = [] ∧
    ((acceptOffer sampleState 10 5 "A" "3" ["s1", "s2"] "email" "d"
        { acceptAllOk with captureOk := false } 50).state.offers.find?
          (fun o => o.id == 10)).map (fun o => (o.status, o.paymentIntent.status))
      = some (OfferStatus.active, HoldStatus.authorized) :=
  ⟨rfl, rfl, rfl, rfl, rfl⟩

/-- **C3 amended**: because the capture is requested before the commit,
a capture failure aborts the whole transaction: no settlement record is
persisted, the offer remains exactly as it was (active, hold
authorized), and the call fails with the capture failure; nothing
resembling a capture-failed hold state or a reconciliation flag is
recorded. -/
theorem acceptOffer_capture_failure_aborts
    (st : StoreState) (offerId sellerId : Nat) (sectionName row : String)
    (seats : List String) (deliveryMethod deliveryDetails : String)
    (env : AcceptEnv) (now : Int) (offer : BuyerOffer)
    (hfind : st.offers.find? (fun o => o.id == offerId) = some offer)
    (hact : offer.status = OfferStatus.active)
    (hsec : offer.sections.contains sectionName = true)
    (h1 : env.listingSaveOk = true) (h2 : env.offerSaveOk = true)
    (h3 : env.txSaveOk = true) (hc : env.captureOk = false) :
    (acceptOffer st offerId sellerId sectionName row seats
        deliveryMethod deliveryDetails env now).result = .error .captureFailed ∧
    (acceptOffer st offerId sellerId sectionName row seats
        deliveryMethod deliveryDetails env now).state = st := by
  unfold acceptOffer
  rw [hfind]
  simp only [hact, if_true, hsec, h1, h2, h3, hc]
  exact ⟨rfl, rfl⟩

/-- Witness for the amended C3 at a concrete input. -/
theorem acceptOffer_capture_failure_aborts_witness :
    sampleState.offers.find? (fun o => o.id == 10) = some sampleOffer ∧
    sampleOffer.status = OfferStatus.active ∧
    sampleOffer.sections.contains "A" = true ∧
    ((acceptOffer sampleState 10 5 "A" "3" ["s1", "s2"] "email" "d"
        { acceptAllOk with captureOk := false } 50).result
      = .error .captureFailed ∧
    (acceptOffer sampleState 10 5 "A" "3" ["s1", "s2"] "email" "d"
        { acceptAllOk with captureOk := false } 50).state = sampleState) :=
  ⟨rfl, rfl, rfl,
   acceptOffer_capture_failure_aborts sampleState 10 5 "A" "3" ["s1", "s2"]
     "email" "d" { acceptAllOk with captureOk := false } 50 sampleOffer
     rfl rfl rfl rfl rfl rfl rfl⟩

/-! ## C7 — a notifier failure after the commit -/

/-- **C7 counterexample**: on `sampleState`, with settlement and
capture fully successful but the notifier failing, the committed
records survive (one transaction, offer matched) but the API response
is an ERROR, not success: the notifier call sits inside the inner try,
so its exception reaches the generic 500 handler — refuting "the
operation still reports success". -/
theorem acceptOffer_notify_failure_changes_response_cx :
    (acceptOffer sampleState 10 5 "A" "3" ["s1", "s2"] "email" "d"
        { acceptAllOk with notifyOk := false } 50).result
      = .error .notifyFailed ∧
    (acceptOffer sampleState 10 5 "A" "3" ["s1", "s2"] "email" "d"
        { acceptAllOk with notifyOk := false } 50).state.transactions.length = 1 ∧
    ((acceptOffer sampleState 10 5 "A" "3" ["s1", "s2"] "email" "d"
        { acceptAllOk with notifyOk := false } 50).state.offers.find?
          (fun o => o.id == 10)).map (fun o => o.status)
      = some OfferStatus.matched :=
  ⟨rfl, rfl, rfl⟩

/-- **C7 amended**: a notifier failure after the committed settlement
leaves the committed records exactly as a fully successful run would
(the store state is identical to the notify-succeeding run of the same
call), but the API response becomes an error instead of success. -/
theorem acceptOffer_notify_failure_keeps_commit
    (st : StoreState) (offerId sellerId : Nat) (sectionName row : String)
    (seats : List String) (deliveryMethod deliveryDetails : String)
    (env : AcceptEnv) (now : Int) (offer : BuyerOffer)
    (hfind : st.offers.find? (fun o => o.id == offerId) = some offer)
    (hact : offer.status = OfferStatus.active)
    (hsec : offer.sections.contains sectionName = true)
    (h1 : env.listingSaveOk = true) (h2 : env.offerSaveOk = true)
    (h3 : env.txSaveOk = true) (h4 : env.captureOk = true)
    (hn : env.notifyOk = false) :
    (acceptOffer st offerId sellerId sectionName row seats
        deliveryMethod deliveryDetails env now).result = .error .notifyFailed ∧
    (acceptOffer st offerId sellerId sectionName row seats
        deliveryMethod deliveryDetails env now).state
      = (acceptOffer st offerId sellerId sectionName row seats
          deliveryMethod deliveryDetails { env with notifyOk := true } now).state ∧
    (∃ tx, tx ∈ (acceptOffer st offerId sellerId sectionName row seats
        deliveryMethod deliveryDetails env now).state.transactions ∧
      tx.buyerOffer = offer.id) := by
  unfold acceptOffer
  rw [hfind]
  simp only [hact, if_true, hsec, h1, h2, h3, h4, hn]
  refine ⟨rfl, rfl, ?_⟩
  exact ⟨_, List.mem_append_right _ (List.mem_singleton.mpr rfl), rfl⟩

/-- Witness for the amended C7 at a concrete input. -/
theorem acceptOffer_notify_failure_keeps_commit_witness :
    sampleState.offers.find? (fun o => o.id == 10) = some sampleOffer ∧
    ((acceptOffer sampleState 10 5 "A" "3" ["s1", "s2"] "email" "d"
        { acceptAllOk with notifyOk := false } 50).result = .error .notifyFailed ∧
    (acceptOffer sampleState 10 5 "A" "3" ["s1", "s2"] "email" "d"
        { acceptAllOk with notifyOk := false } 50).state
      = (acceptOffer sampleState 10 5 "A" "3" ["s1", "s2"] "email" "d"
          { { acceptAllOk with notifyOk := false } with notifyOk := true } 50).state ∧
    (∃ tx, tx ∈ (acceptOffer sampleState 10 5 "A" "3" ["s1", "s2"] "email" "d"
        { acceptAllOk with notifyOk := false } 50).state.transactions ∧
      tx.buyerOffer = sampleOffer.id)) :=
  ⟨rfl,
   acceptOffer_notify_failure_keeps_commit sampleState 10 5 "A" "3"
     ["s1", "s2"] "email" "d" { acceptAllOk with notifyOk := false } 50
     sampleOffer rfl rfl rfl rfl rfl rfl rfl rfl⟩

/-! ## C10 — viewEventOffers mutates what it returns -/

/-- **C10**: `viewEventOffers` returns exactly the active offers of the
event matching the query, and mutates every offer it returns: the new
store replaces each returned offer by its `recordView` image (viewCount
incremented by exactly 1, one (viewer, timestamp) entry appended),
leaves every offer whose id was not returned untouched, leaves all the
other fields of the mutated offers untouched, and does not touch any
other collection. -/
theorem viewEventOffers_mutates_returned
    (st : StoreState) (eventId sellerId : Nat) (sections : Option (List String))
    (minPrice : Option ℚ) (now : Int) (o : BuyerOffer)
    (ho : o ∈ (viewEventOffers st eventId sellerId sections minPrice now).returned) :
    (viewEventOffers st eventId sellerId sections minPrice now).returned
      = st.offers.filter (offerMatchesView eventId sections minPrice) ∧
    recordView sellerId now o
      ∈ (viewEventOffers st eventId sellerId sections minPrice now).state.offers ∧
    (recordView sellerId now o).viewCount = o.viewCount + 1 ∧
    (recordView sellerId now o).lastViewedBy = o.lastViewedBy ++ [(sellerId, now)] ∧
    (recordView sellerId now o).id = o.id ∧
    (recordView sellerId now o).status = o.status ∧
    (recordView sellerId now o).maxPrice = o.maxPrice ∧
    (recordView sellerId now o).quantity = o.quantity ∧
    (recordView sellerId now o).paymentIntent = o.paymentIntent ∧
    (recordView sellerId now o).expiresAt = o.expiresAt ∧
    (recordView sellerId now o).matchedAt = o.matchedAt ∧
    (recordView sellerId now o).matchedListing = o.matchedListing ∧
    (recordView sellerId now o).sections = o.sections ∧
    (recordView sellerId now o).buyer = o.buyer ∧
    (recordView sellerId now o).event = o.event ∧
    (∀ p ∈ st.offers,
      p.id ∉ (viewEventOffers st eventId sellerId sections minPrice now).returned.map
        (fun q => q.id) →
      p ∈ (viewEventOffers st eventId sellerId sections minPrice now).state.offers) ∧
    (viewEventOffers st eventId sellerId sections minPrice now).state.transactions
      = st.transactions ∧
    (viewEventOffers st eventId sellerId sections minPrice now).state.listings
      = st.listings ∧
    (viewEventOffers st eventId sellerId sections minPrice now).state.events
      = st.events := by
  have hmemSt : o ∈ st.offers := List.mem_of_mem_filter ho
  have hids : o.id ∈ (st.offers.filter
      (offerMatchesView eventId sections minPrice)).map (fun q => q.id) :=
    List.mem_map.mpr ⟨o, ho, rfl⟩
  refine ⟨rfl, ?_, rfl, rfl, rfl, rfl, rfl, rfl, rfl, rfl, rfl, rfl, rfl, rfl, rfl,
    ?_, rfl, rfl, rfl⟩
  · show recordView sellerId now o ∈ st.offers.map (applyViewUpdate
      ((st.offers.filter (offerMatchesView eventId sections minPrice)).map
        (fun q => q.id)) sellerId now)
    exact List.mem_map.mpr ⟨o, hmemSt,
      applyViewUpdate_pos _ sellerId now o hids⟩
  · intro p hp hpid
    show p ∈ st.offers.map (applyViewUpdate
      ((st.offers.filter (offerMatchesView eventId sections minPrice)).map
        (fun q => q.id)) sellerId now)
    exact List.mem_map.mpr ⟨p, hp, applyViewUpdate_neg _ sellerId now p hpid⟩

/-- Witness for C10 at a concrete input: viewing event 1 on
`sampleState` returns `sampleOffer` and bumps its analytics. -/
theorem viewEventOffers_mutates_returned_witness :
    sampleOffer ∈ (viewEventOffers sampleState 1 5 none none 77).returned ∧
    ((viewEventOffers sampleState 1 5 none none 77).returned
      = sampleState.offers.filter (offerMatchesView 1 none none) ∧
    recordView 5 77 sampleOffer
      ∈ (viewEventOffers sampleState 1 5 none none 77).state.offers ∧
    (recordView 5 77 sampleOffer).viewCount = sampleOffer.viewCount + 1 ∧
    (recordView 5 77 sampleOffer).lastViewedBy
      = sampleOffer.lastViewedBy ++ [(5, 77)] ∧
    (recordView 5 77 sampleOffer).id = sampleOffer.id ∧
    (recordView 5 77 sampleOffer).status = sampleOffer.status ∧
    (recordView 5 77 sampleOffer).maxPrice = sampleOffer.maxPrice ∧
    (recordView 5 77 sampleOffer).quantity = sampleOffer.quantity ∧
    (recordView 5 77 sampleOffer).paymentIntent = sampleOffer.paymentIntent ∧
    (recordView 5 77 sampleOffer).expiresAt = sampleOffer.expiresAt ∧
    (recordView 5 77 sampleOffer).matchedAt = sampleOffer.matchedAt ∧
    (recordView 5 77 sampleOffer).matchedListing = sampleOffer.matchedListing ∧
    (recordView 5 77 sampleOffer).sections = sampleOffer.sections ∧
    (recordView 5 77 sampleOffer).buyer = sampleOffer.buyer ∧
    (recordView 5 77 sampleOffer).event = sampleOffer.event ∧
    (∀ p ∈ sampleState.offers,
      p.id ∉ (viewEventOffers sampleState 1 5 none none 77).returned.map
        (fun q => q.id) →
      p ∈ (viewEventOffers sampleState 1 5 none none 77).state.offers) ∧
    (viewEventOffers sampleState 1 5 none none 77).state.transactions
      = sampleState.transactions ∧
    (viewEventOffers sampleState 1 5 none none 77).state.listings
      = sampleState.listings ∧
    (viewEventOffers sampleState 1 5 none none 77).state.events
      = sampleState.events) :=
  ⟨show sampleOffer ∈ [sampleOffer] from List.mem_singleton.mpr rfl,
   viewEventOffers_mutates_returned sampleState 1 5 none none 77 sampleOffer
     (show sampleOffer ∈ [sampleOffer] from List.mem_singleton.mpr rfl)⟩

/-! ## C8 — the expiry sweep -/

/-- **C8** (settled against the spec-modelled `expireSweep`, whose code
is not in the excerpted source): the sweep attempts a hold cancellation
for EVERY active offer past its expiresAt — independently of failures
on any other offer — transitions each such offer to expired with its
hold cancelled when the cancellation succeeds, leaves it active for
retry when the cancellation fails, and leaves offers that are not due
untouched. -/
theorem expireSweep_expires_due_offers
    (st : StoreState) (now : Int) (cancelOk : Nat → Bool) (o : BuyerOffer)
    (ho : o ∈ st.offers) :
    (offerDue now o = true → o.id ∈ (expireSweep st now cancelOk).attempted) ∧
    (offerDue now o = true → cancelOk o.id = true →
      expiredVersion o ∈ (expireSweep st now cancelOk).state.offers) ∧
    (offerDue now o = true → cancelOk o.id = false →
      o ∈ (expireSweep st now cancelOk).state.offers) ∧
    (offerDue now o = false → o ∈ (expireSweep st now cancelOk).state.offers) ∧
    (expireSweep st now cancelOk).attempted
      = (st.offers.filter (offerDue now)).map (fun p => p.id) := by
  refine ⟨?_, ?_, ?_, ?_, rfl⟩
  · intro hdue
    exact List.mem_map.mpr ⟨o, List.mem_filter.mpr ⟨ho, hdue⟩, rfl⟩
  · intro hdue hok
    exact List.mem_map.mpr ⟨o, ho, by simp [hdue, hok]⟩
  · intro hdue hko
    exact List.mem_map.mpr ⟨o, ho, by simp [hdue, hko]⟩
  · intro hdue
    exact List.mem_map.mpr ⟨o, ho, by simp [hdue]⟩

/-- Witness for C8 at a concrete input: `dueOffer` (active, expiresAt
10) is due at time 50; with a succeeding cancellation it is attempted
and expires with its hold cancelled. -/
theorem expireSweep_expires_due_offers_witness :
    dueOffer ∈ sweepState.offers ∧
    ((offerDue 50 dueOffer = true →
      dueOffer.id ∈ (expireSweep sweepState 50 (fun _ => true)).attempted) ∧
    (offerDue 50 dueOffer = true → (fun _ => true) dueOffer.id = true →
      expiredVersion dueOffer
        ∈ (expireSweep sweepState 50 (fun _ => true)).state.offers) ∧
    (offerDue 50 dueOffer = true → (fun _ => true) dueOffer.id = false →
      dueOffer ∈ (expireSweep sweepState 50 (fun _ => true)).state.offers) ∧
    (offerDue 50 dueOffer = false →
      dueOffer ∈ (expireSweep sweepState 50 (fun _ => true)).state.offers) ∧
    (expireSweep sweepState 50 (fun _ => true)).attempted
      = (sweepState.offers.filter (offerDue 50)).map (fun p => p.id)) :=
  ⟨show dueOffer ∈ [dueOffer] from List.mem_singleton.mpr rfl,
   expireSweep_expires_due_offers sweepState 50 (fun _ => true) dueOffer
     (show dueOffer ∈ [dueOffer] from List.mem_singleton.mpr rfl)⟩

/-! ## C1 — invariant preservation -/

/-- `createOffer` either leaves the store unchanged or appends one
fresh-id offer. -/
lemma createOffer_state_cases (st : StoreState) (buyerId eventId : Nat)
    (sections : List String) (maxPrice : ℚ) (quantity : Nat)
    (env : CreateEnv) (now : Int) :
    (createOffer st buyerId eventId sections maxPrice quantity env now).state = st ∨
    ∃ o : BuyerOffer, o.id = st.nextId ∧
      (createOffer st buyerId eventId sections maxPrice quantity env now).state
        = { st with offers := st.offers ++ [o], nextId := st.nextId + 1 } := by
  unfold createOffer
  cases st.events.find? (fun e => e.id == eventId) with
  | none => exact Or.inl rfl
  | some ev =>
    dsimp only
    by_cases hup : ev.status = "upcoming"
    · rw [if_pos hup]
      by_cases hh : env.holdOk = true
      · rw [if_pos hh]
        by_cases hs : env.saveOk = true
        · rw [if_pos hs]
          by_cases hi : env.instantMatchOk = true
          · rw [if_pos hi]
            exact Or.inr ⟨_, rfl, rfl⟩
          · rw [if_neg hi]
            exact Or.inr ⟨_, rfl, rfl⟩
        · rw [if_neg hs]
          exact Or.inl rfl
      · rw [if_neg hh]
        exact Or.inl rfl
    · rw [if_neg hup]
      exact Or.inl rfl

/-- `acceptOffer` either leaves the store unchanged or commits: the
found active offer is replaced (same id, now matched), some listings
are appended, and exactly one transaction referencing that offer is
appended, with the id allocator advanced. -/
lemma acceptOffer_state_cases (st : StoreState) (offerId sellerId : Nat)
    (sectionName row : String) (seats : List String)
    (deliveryMethod deliveryDetails : String) (env : AcceptEnv) (now : Int) :
    (acceptOffer st offerId sellerId sectionName row seats
        deliveryMethod deliveryDetails env now).state = st ∨
    ∃ (offer m : BuyerOffer) (tx : Transaction) (ls : List SellerListing),
      st.offers.find? (fun o => o.id == offerId) = some offer ∧
      offer.status = OfferStatus.active ∧
      (acceptOffer st offerId sellerId sectionName row seats
          deliveryMethod deliveryDetails env now).state
        = { st with
            offers := st.offers.map (fun o => if o.id == offerId then m else o)
            listings := st.listings ++ ls
            transactions := st.transactions ++ [tx]
            nextId := st.nextId + 1 } ∧
      tx.buyerOffer = offer.id ∧
      m.id = offer.id ∧ m.status = OfferStatus.matched := by
  unfold acceptOffer
  cases hfind : st.offers.find? (fun o => o.id == offerId) with
  | none => exact Or.inl rfl
  | some offer =>
    dsimp only
    by_cases hact : offer.status = OfferStatus.active
    · rw [if_pos hact]
      by_cases hsec : offer.sections.contains sectionName = true
      · rw [if_pos hsec]
        by_cases h1 : env.listingSaveOk = true
        · rw [if_pos h1]
          by_cases h2 : env.offerSaveOk = true
          · rw [if_pos h2]
            by_cases h3 : env.txSaveOk = true
            · rw [if_pos h3]
              by_cases h4 : env.captureOk = true
              · rw [if_pos h4]
                by_cases h5 : env.notifyOk = true
                · rw [if_pos h5]
                  exact Or.inr ⟨offer, _, _, _, rfl, hact, rfl, rfl, rfl, rfl⟩
                · rw [if_neg h5]
                  exact Or.inr ⟨offer, _, _, _, rfl, hact, rfl, rfl, rfl, rfl⟩
              · rw [if_neg h4]
                exact Or.inl rfl
            · rw [if_neg h3]
              exact Or.inl rfl
          · rw [if_neg h2]
            exact Or.inl rfl
        · rw [if_neg h1]
          exact Or.inl rfl
      · rw [if_neg hsec]
        exact Or.inl rfl
    · rw [if_neg hact]
      exact Or.inl rfl

/-- `cancelOffer` either leaves the store unchanged or replaces one
existing offer by a same-id cancelled version. -/
lemma cancelOffer_state_cases (st : StoreState) (offerId requesterId : Nat)
    (cancelOk : Bool) :
    (cancelOffer st offerId requesterId cancelOk).state = st ∨
    ∃ offer m : BuyerOffer, offer ∈ st.offers ∧
      (cancelOffer st offerId requesterId cancelOk).state
        = { st with offers := st.offers.map (fun o => if o.id == offer.id then m else o) } ∧
      m.id = offer.id ∧ m.status = OfferStatus.cancelled := by
  unfold cancelOffer
  cases hfind : st.offers.find? (fun o => o.id == offerId
      && o.buyer == requesterId && decide (o.status = OfferStatus.active)) with
  | none => exact Or.inl rfl
  | some offer =>
    dsimp only
    by_cases hc : cancelOk = true
    · rw [if_pos hc]
      exact Or.inr ⟨offer, _, List.mem_of_find?_eq_some hfind, rfl, rfl, rfl⟩
    · rw [if_neg hc]
      exact Or.inl rfl

/-- Appending a fresh-status offer with a fresh id preserves the
settlement invariant. -/
lemma inv_append_offer (st : StoreState) (o : BuyerOffer)
    (hInv : SettlementInv st) (hid : o.id = st.nextId) :
    SettlementInv { st with offers := st.offers ++ [o], nextId := st.nextId + 1 } := by
  obtain ⟨h1, h2, h3, h4⟩ := hInv
  refine ⟨h1, ?_, ?_, ?_⟩
  · intro p hp hpact
    rcases List.mem_append.mp hp with hp | hp
    · exact h2 p hp hpact
    · rw [List.mem_singleton.mp hp, hid]
      refine List.countP_eq_zero.mpr ?_
      intro t ht hbeq
      have hlt := h4 t ht
      have : t.buyerOffer = st.nextId := by simpa using hbeq
      omega
  · intro p hp
    rcases List.mem_append.mp hp with hp | hp
    · exact Nat.lt_succ_of_lt (h3 p hp)
    · rw [List.mem_singleton.mp hp, hid]
      exact Nat.lt_succ_self _
  · intro t ht
    exact Nat.lt_succ_of_lt (h4 t ht)

/-- Remapping the offers by an id-preserving function that never turns
a non-active offer active — with listings, transactions and the id
allocator untouched — preserves the settlement invariant. -/
lemma inv_offers_map (st : StoreState) (f : BuyerOffer → BuyerOffer)
    (hInv : SettlementInv st)
    (hid : ∀ o ∈ st.offers, (f o).id = o.id)
    (hact : ∀ o ∈ st.offers, (f o).status = OfferStatus.active →
      o.status = OfferStatus.active) :
    SettlementInv { st with offers := st.offers.map f } := by
  obtain ⟨h1, h2, h3, h4⟩ := hInv
  refine ⟨h1, ?_, ?_, h4⟩
  · intro p hp hpact
    obtain ⟨q, hq, rfl⟩ := List.mem_map.mp hp
    have hq0 : txRefs st q.id = 0 := h2 q hq (hact q hq hpact)
    show txRefs st (f q).id = 0
    rw [hid q hq]
    exact hq0
  · intro p hp
    obtain ⟨q, hq, rfl⟩ := List.mem_map.mp hp
    show (f q).id < st.nextId
    rw [hid q hq]
    exact h3 q hq

/-- Committing a settlement — replacing the found active offer by a
matched same-id version and appending exactly one transaction that
references it — preserves the settlement invariant. -/
lemma inv_commit (st : StoreState) (offerId : Nat) (offer m : BuyerOffer)
    (tx : Transaction) (ls : List SellerListing)
    (hInv : SettlementInv st)
    (hfind : st.offers.find? (fun o => o.id == offerId) = some offer)
    (hact : offer.status = OfferStatus.active)
    (htx : tx.buyerOffer = offer.id)
    (hmid : m.id = offer.id) (hmst : m.status = OfferStatus.matched) :
    SettlementInv { st with
      offers := st.offers.map (fun o => if o.id == offerId then m else o)
      listings := st.listings ++ ls
      transactions := st.transactions ++ [tx]
      nextId := st.nextId + 1 } := by
  obtain ⟨h1, h2, h3, h4⟩ := hInv
  have hmem : offer ∈ st.offers := List.mem_of_find?_eq_some hfind
  have hoid : offer.id = offerId := by simpa using List.find?_some hfind
  have hzero : txRefs st offer.id = 0 := h2 offer hmem hact
  refine ⟨?_, ?_, ?_, ?_⟩
  · intro oid
    show (st.transactions ++ [tx]).countP (fun t => t.buyerOffer == oid) ≤ 1
    rw [List.countP_append]
    by_cases hx : oid = offer.id
    · rw [hx]
      have h0 : st.transactions.countP (fun t => t.buyerOffer == offer.id) = 0 := hzero
      simp [List.countP_cons, h0, htx]
    · have hone : st.transactions.countP (fun t => t.buyerOffer == oid) ≤ 1 := h1 oid
      have hne : tx.buyerOffer ≠ oid := by
        rw [htx]
        exact fun h => hx h.symm
      have hz1 : List.countP (fun t => t.buyerOffer == oid) [tx] = 0 := by
        simp [List.countP_cons, hne]
      omega
  · intro p hp hpact
    obtain ⟨q, hq, hqe⟩ := List.mem_map.mp hp
    by_cases hqc : (q.id == offerId) = true
    · rw [if_pos hqc] at hqe
      rw [← hqe, hmst] at hpact
      exact absurd hpact (by simp)
    · rw [if_neg (by simpa using hqc)] at hqe
      subst hqe
      have hq0 : txRefs st q.id = 0 := h2 q hq hpact
      show (st.transactions ++ [tx]).countP (fun t => t.buyerOffer == q.id) = 0
      rw [List.countP_append]
      have hne : tx.buyerOffer ≠ q.id := by
        rw [htx, hoid]
        intro hcon
        exact hqc (by simp [hcon])
      have : List.countP (fun t => t.buyerOffer == q.id) [tx] = 0 := by
        simp [List.countP_cons, hne]
      have hq0' : st.transactions.countP (fun t => t.buyerOffer == q.id) = 0 := hq0
      omega
  · intro p hp
    obtain ⟨q, hq, hqe⟩ := List.mem_map.mp hp
    by_cases hqc : (q.id == offerId) = true
    · rw [if_pos hqc] at hqe
      rw [← hqe, hmid]
      exact Nat.lt_succ_of_lt (h3 offer hmem)
    · rw [if_neg (by simpa using hqc)] at hqe
      subst hqe
      exact Nat.lt_succ_of_lt (h3 q hq)
  · intro t ht
    rcases List.mem_append.mp ht with ht | ht
    · exact Nat.lt_succ_of_lt (h4 t ht)
    · rw [List.mem_singleton.mp ht, htx]
      exact Nat.lt_succ_of_lt (h3 offer hmem)

lemma inv_createOffer (st : StoreState) (buyerId eventId : Nat)
    (sections : List String) (maxPrice : ℚ) (quantity : Nat)
    (env : CreateEnv) (now : Int) (hInv : SettlementInv st) :
    SettlementInv (createOffer st buyerId eventId sections maxPrice quantity env now).state := by
  rcases createOffer_state_cases st buyerId eventId sections maxPrice quantity env now with
    h | ⟨o, hid, h⟩
  · rw [h]; exact hInv
  · rw [h]; exact inv_append_offer st o hInv hid

lemma inv_acceptOffer (st : StoreState) (offerId sellerId : Nat)
    (sectionName row : String) (seats : List String)
    (deliveryMethod deliveryDetails : String) (env : AcceptEnv) (now : Int)
    (hInv : SettlementInv st) :
    SettlementInv (acceptOffer st offerId sellerId sectionName row seats
      deliveryMethod deliveryDetails env now).state := by
  rcases acceptOffer_state_cases st offerId sellerId sectionName row seats
      deliveryMethod deliveryDetails env now with
    h | ⟨offer, m, tx, ls, hfind, hact, h, htx, hmid, hmst⟩
  · rw [h]; exact hInv
  · rw [h]; exact inv_commit st offerId offer m tx ls hInv hfind hact htx hmid hmst

lemma inv_cancelOffer (st : StoreState) (offerId requesterId : Nat)
    (cancelOk : Bool) (hInv : SettlementInv st) :
    SettlementInv (cancelOffer st offerId requesterId cancelOk).state := by
  rcases cancelOffer_state_cases st offerId requesterId cancelOk with
    h | ⟨offer, m, hmem, h, hmid, hmst⟩
  · rw [h]; exact hInv
  · rw [h]
    refine inv_offers_map st _ hInv ?_ ?_
    · intro o ho
      by_cases hoe : (o.id == offer.id) = true
      · rw [if_pos hoe, hmid]
        exact (by simpa using hoe : o.id = offer.id).symm
      · rw [if_neg (by simpa using hoe)]
    · intro o ho
      by_cases hoe : (o.id == offer.id) = true
      · rw [if_pos hoe, hmst]
        intro hcon
        cases hcon
      · rw [if_neg (by simpa using hoe)]
        exact id

lemma inv_viewEventOffers (st : StoreState) (eventId sellerId : Nat)
    (sections : Option (List String)) (minPrice : Option ℚ) (now : Int)
    (hInv : SettlementInv st) :
    SettlementInv (viewEventOffers st eventId sellerId sections minPrice now).state := by
  show SettlementInv { st with
    offers := st.offers.map (applyViewUpdate
      ((st.offers.filter (offerMatchesView eventId sections minPrice)).map
        (fun q => q.id)) sellerId now) }
  refine inv_offers_map st _ hInv ?_ ?_
  · intro o ho
    unfold applyViewUpdate
    split <;> rfl
  · intro o ho
    unfold applyViewUpdate
    split <;> exact id

lemma inv_expireSweep (st : StoreState) (now : Int) (cancelOk : Nat → Bool)
    (hInv : SettlementInv st) :
    SettlementInv (expireSweep st now cancelOk).state := by
  show SettlementInv { st with
    offers := st.offers.map (fun o =>
      if offerDue now o then
        if cancelOk o.id then expiredVersion o else o
      else o) }
  refine inv_offers_map st _ hInv ?_ ?_
  · intro o ho
    by_cases h1 : offerDue now o = true
    · rw [if_pos h1]
      by_cases h2 : cancelOk o.id = true
      · rw [if_pos h2]
        rfl
      · rw [if_neg h2]
    · rw [if_neg h1]
  · intro o ho
    by_cases h1 : offerDue now o = true
    · rw [if_pos h1]
      by_cases h2 : cancelOk o.id = true
      · rw [if_pos h2]
        intro hcon
        cases hcon
      · rw [if_neg h2]
        exact id
    · rw [if_neg h1]
      exact id

lemma inv_bulkUpload (st : StoreState) (sellerId : Nat)
    (items : List ListingSpec) (hInv : SettlementInv st) :
    SettlementInv (bulkUpload st sellerId items) := by
  obtain ⟨h1, h2, h3, h4⟩ := hInv
  refine ⟨h1, h2, ?_, ?_⟩
  · intro o ho
    exact Nat.lt_of_lt_of_le (h3 o ho) (Nat.le_add_right _ _)
  · intro t ht
    exact Nat.lt_of_lt_of_le (h4 t ht) (Nat.le_add_right _ _)

lemma inv_step (st : StoreState) (op : Op) (hInv : SettlementInv st) :
    SettlementInv (step st op) := by
  cases op with
  | create b e secs mp q env now => exact inv_createOffer st b e secs mp q env now hInv
  | accept oid sid sec row seats dm dd env now =>
      exact inv_acceptOffer st oid sid sec row seats dm dd env now hInv
  | cancel oid rid ok => exact inv_cancelOffer st oid rid ok hInv
  | view e sid secs mp now => exact inv_viewEventOffers st e sid secs mp now hInv
  | bulk sid items => exact inv_bulkUpload st sid items hInv
  | sweep now f => exact inv_expireSweep st now f hInv

lemma inv_runOps (st : StoreState) (ops : List Op) (hInv : SettlementInv st) :
    SettlementInv (runOps st ops) := by
  induction ops generalizing st with
  | nil => exact hInv
  | cons op ops ih => exact ih (step st op) (inv_step st op hInv)

lemma inv_initState (evs : List EventRec) : SettlementInv (initState evs) := by
  refine ⟨fun _ => Nat.zero_le _, ?_, ?_, ?_⟩
  · intro o ho
    cases ho
  · intro o ho
    cases ho
  · intro t ht
    cases ht

/-! ## C1 — race arbitration over a serialized batch -/

/-- A looked-up offer that is not active makes `acceptOffer` fail with
`offerNotAvailable`, leaving the store unchanged and issuing no
external call. -/
lemma acceptOffer_not_active (st : StoreState) (offerId sellerId : Nat)
    (sectionName row : String) (seats : List String)
    (deliveryMethod deliveryDetails : String) (env : AcceptEnv) (now : Int)
    (m : BuyerOffer)
    (hfind : st.offers.find? (fun o => o.id == offerId) = some m)
    (hm : m.status ≠ OfferStatus.active) :
    acceptOffer st offerId sellerId sectionName row seats
        deliveryMethod deliveryDetails env now
      = ⟨.error .offerNotAvailable, st, []⟩ := by
  unfold acceptOffer
  rw [hfind]
  dsimp only
  rw [if_neg hm]

/-- Once the looked-up offer is stuck non-active, a whole batch of
accept requests fails uniformly with `offerNotAvailable` and the store
never changes. -/
lemma runAccepts_stuck (st : StoreState) (offerId : Nat) (rs : List AcceptReq)
    (m : BuyerOffer)
    (hfind : st.offers.find? (fun o => o.id == offerId) = some m)
    (hm : m.status ≠ OfferStatus.active) :
    runAccepts st offerId rs
      = (rs.map (fun _ => .error .offerNotAvailable), st) := by
  induction rs with
  | nil => rfl
  | cons r rs ih =>
    simp only [runAccepts]
    rw [acceptOffer_not_active st offerId r.sellerId r.sectionName r.row r.seats
      r.deliveryMethod r.deliveryDetails r.env r.now m hfind hm]
    simp only [List.map_cons]
    rw [ih]

/-- A fully successful accept leaves the matched offer where the next
lookup finds it. -/
lemma acceptOffer_commit_find (st : StoreState) (offerId sellerId : Nat)
    (sectionName row : String) (seats : List String)
    (deliveryMethod deliveryDetails : String) (env : AcceptEnv) (now : Int)
    (offer : BuyerOffer)
    (hfind : st.offers.find? (fun o => o.id == offerId) = some offer)
    (hact : offer.status = OfferStatus.active)
    (hsec : offer.sections.contains sectionName = true)
    (h1 : env.listingSaveOk = true) (h2 : env.offerSaveOk = true)
    (h3 : env.txSaveOk = true) (h4 : env.captureOk = true) :
    (acceptOffer st offerId sellerId sectionName row seats
        deliveryMethod deliveryDetails env now).state.offers.find?
        (fun o => o.id == offerId)
      = some { offer with
          status := .matched
          matchedListing := some st.nextId
          matchedAt := some now } := by
  have hbeq : (offer.id == offerId) = true := by
    have hid : offer.id = offerId := by simpa using List.find?_some hfind
    simp [hid]
  unfold acceptOffer
  rw [hfind]
  dsimp only
  rw [if_pos hact, if_pos hsec, if_pos h1, if_pos h2, if_pos h3, if_pos h4]
  by_cases h5 : env.notifyOk = true
  · rw [if_pos h5]
    exact find?_map_update st.offers offerId _ offer hfind hbeq
  · rw [if_neg h5]
    exact find?_map_update st.offers offerId _ offer hfind hbeq

/-- A valid accept with every collaborator call succeeding returns a
settled transaction. -/
lemma acceptOffer_allOk_result (st : StoreState) (offerId sellerId : Nat)
    (sectionName row : String) (seats : List String)
    (deliveryMethod deliveryDetails : String) (env : AcceptEnv) (now : Int)
    (offer : BuyerOffer)
    (hfind : st.offers.find? (fun o => o.id == offerId) = some offer)
    (hact : offer.status = OfferStatus.active)
    (hsec : offer.sections.contains sectionName = true)
    (henv : env.allOk = true) :
    ∃ tx, (acceptOffer st offerId sellerId sectionName row seats
        deliveryMethod deliveryDetails env now).result = .ok tx := by
  simp only [AcceptEnv.allOk, Bool.and_eq_true] at henv
  obtain ⟨⟨⟨⟨h1, h2⟩, h3⟩, h4⟩, h5⟩ := henv
  unfold acceptOffer
  rw [hfind]
  dsimp only
  rw [if_pos hact, if_pos hsec, if_pos h1, if_pos h2, if_pos h3, if_pos h4,
    if_pos h5]
  exact ⟨_, rfl⟩

/-- **C1**: (a) for every serialization of N ≥ 1 concurrent
`acceptOffer` invocations on the same active offer with valid,
non-conflicting inputs and succeeding collaborator calls — each
invocation runs read-validate-write inside one store transaction, so
every concurrent interleaving is equivalent to such a serialization —
the first invocation completes the settlement write with a settled
transaction and each of the other N−1 fails with `offerNotAvailable`;
(b) at no reachable store state does more than one settled transaction
reference the same buyer offer. -/
theorem acceptOffer_exactly_one_wins
    (st : StoreState) (offerId : Nat) (offer : BuyerOffer)
    (r : AcceptReq) (rs : List AcceptReq)
    (hfind : st.offers.find? (fun o => o.id == offerId) = some offer)
    (hact : offer.status = OfferStatus.active)
    (hall : ∀ q ∈ r :: rs, offer.sections.contains q.sectionName = true ∧
      q.env.allOk = true) :
    (∃ tx, (runAccepts st offerId (r :: rs)).1
        = .ok tx :: rs.map (fun _ => .error .offerNotAvailable)) ∧
    (∀ s, Reachable s → ∀ oid, txRefs s oid ≤ 1) := by
  constructor
  · obtain ⟨hsec, henv⟩ := hall r (List.mem_cons_self r rs)
    have henv' := henv
    simp only [AcceptEnv.allOk, Bool.and_eq_true] at henv'
    obtain ⟨⟨⟨⟨h1, h2⟩, h3⟩, h4⟩, h5⟩ := henv'
    obtain ⟨tx, htxr⟩ := acceptOffer_allOk_result st offerId r.sellerId
      r.sectionName r.row r.seats r.deliveryMethod r.deliveryDetails r.env r.now
      offer hfind hact hsec henv
    have hfind' := acceptOffer_commit_find st offerId r.sellerId r.sectionName
      r.row r.seats r.deliveryMethod r.deliveryDetails r.env r.now offer
      hfind hact hsec h1 h2 h3 h4
    have hstuck := runAccepts_stuck
      ((acceptOffer st offerId r.sellerId r.sectionName r.row r.seats
        r.deliveryMethod r.deliveryDetails r.env r.now).state) offerId rs _
      hfind' (by intro hcon; cases hcon)
    refine ⟨tx, ?_⟩
    simp only [runAccepts]
    rw [htxr, hstuck]
  · rintro s ⟨evs, ops, rfl⟩ oid
    exact (inv_runOps (initState evs) ops (inv_initState evs)).1 oid

/-- Witness for C1 at a concrete input: sellers 5 and 6 both accept
`sampleOffer`; the first wins, the second gets `offerNotAvailable`. -/
theorem acceptOffer_exactly_one_wins_witness :
    sampleState.offers.find? (fun o => o.id == 10) = some sampleOffer ∧
    sampleOffer.status = OfferStatus.active ∧
    (∀ q ∈ [reqA, reqB], sampleOffer.sections.contains q.sectionName = true ∧
      q.env.allOk = true) ∧
    ((∃ tx, (runAccepts sampleState 10 [reqA, reqB]).1
        = .ok tx :: [reqB].map (fun _ => .error .offerNotAvailable)) ∧
    (∀ s, Reachable s → ∀ oid, txRefs s oid ≤ 1)) :=
  ⟨rfl, rfl, by decide,
   acceptOffer_exactly_one_wins sampleState 10 sampleOffer reqA [reqB]
     rfl rfl (by decide)⟩

end Automatch
